import Mathlib

/-!
Shallow embedding of `src/server/src/db/postgres.ts`: an instrumented
Prisma client wrapper.  The file under verification configures client
options from a production flag, installs a `$allOperations` query
extension that logs timing and result-size information, maintains a
process-wide singleton slot (`globalThis.__prisma__`), and registers
shutdown handlers (`gracefulExit` on SIGINT/SIGTERM, a separate
`beforeExit` listener).

The embedding models JavaScript result values, console output as an
explicit trace of log events, the underlying query/disconnect operations
as outcome parameters (`Except`), and the global slot as explicit state.
-/

namespace Postgres

/-- JavaScript runtime values, as far as the hook inspects them:
`Array.isArray`, truthiness, and `typeof`. Objects carry an identity tag
so distinct instances can be told apart. -/
inductive JSValue where
  | undefined : JSValue
  | null : JSValue
  | bool (b : Bool) : JSValue
  | num (n : Int) : JSValue
  | str (s : String) : JSValue
  | obj (id : Nat) : JSValue
  | arr (elems : List JSValue) : JSValue

/-- JavaScript `typeof` on the embedded values (`typeof null` is
"object", arrays are "object"). -/
def typeof : JSValue → String
  | .undefined => "undefined"
  | .null => "object"
  | .bool _ => "boolean"
  | .num _ => "number"
  | .str _ => "string"
  | .obj _ => "object"
  | .arr _ => "object"

/-- JavaScript truthiness of the embedded values (objects and arrays are
always truthy; `0`, the empty string, `false`, `null`, `undefined` are
falsy). -/
def truthy : JSValue → Bool
  | .undefined => false
  | .null => false
  | .bool b => b
  | .num n => !(n == 0)
  | .str s => !(s == "")
  | .obj _ => true
  | .arr _ => true

/-- JavaScript `Array.isArray` on the embedded values. -/
def isArray : JSValue → Bool
  | .arr _ => true
  | _ => false

/-- Console output events: `console.log` writes to stdout, `console.error`
to stderr; `errWith` is `console.error` with a second payload argument. -/
inductive LogEvent where
  | out (text : String) : LogEvent
  | err (text : String) : LogEvent
  | errWith (text : String) (payload : JSValue) : LogEvent

/-- Prisma log levels (`Prisma.LogLevel`). -/
inductive LogLevel where
  | query : LogLevel
  | info : LogLevel
  | warn : LogLevel
  | error : LogLevel
deriving DecidableEq, Repr

/-- Prisma error formats (`Prisma.ErrorFormat`). -/
inductive ErrorFormat where
  | minimal : ErrorFormat
  | colorless : ErrorFormat
  | pretty : ErrorFormat
deriving DecidableEq, Repr

/-- Source: `const prismaLog = isProd ? ["warn","error"] :
["info","warn","error"]`. -/
def prismaLog (isProd : Bool) : List LogLevel :=
  if isProd then [.warn, .error] else [.info, .warn, .error]

/-- The subset of `Prisma.PrismaClientOptions` the file sets. -/
structure PrismaClientOptions where
  log : List LogLevel
  errorFormat : ErrorFormat
deriving DecidableEq, Repr

/-- Source: `const prismaOptions = { log: prismaLog, errorFormat: isProd ?
"minimal" : "pretty" }`. -/
def prismaOptions (isProd : Bool) : PrismaClientOptions :=
  { log := prismaLog isProd
    errorFormat := if isProd then .minimal else .pretty }

/-- The process-wide state relevant to client construction: the global
slot `globalThis.__prisma__` (clients identified by a numeric identity)
and a supply of fresh identities for `new PrismaClient(...)`. -/
structure GlobalState where
  slot : Option Nat
  nextId : Nat
deriving DecidableEq, Repr

/-- Source, lines 25-26:
`const base = globalThis.__prisma__ ?? createBaseClient();`
`if (!isProd) globalThis.__prisma__ = base;`
Returns the chosen base client and the updated global state. -/
def initBase (isProd : Bool) (g : GlobalState) : Nat × GlobalState :=
  let (base, g1) :=
    match g.slot with
    | some c => (c, g)
    | none => (g.nextId, { g with nextId := g.nextId + 1 })
  if !isProd then (base, { g1 with slot := some base }) else (base, g1)

/-- The size hint of the success branch:
`Array.isArray(result) ? \x22 items=${result.length}\x22 :
result && typeof result === "object" ? " item=1" : ""`. -/
def sizeHint (result : JSValue) : String :=
  if isArray result then
    match result with
    | .arr elems => " items=" ++ toString elems.length
    | _ => ""
  else if truthy result && (typeof result == "object") then " item=1"
  else ""

/-- The `$allOperations` hook of the query extension, lines 35-53.  The
underlying operation `query(args)` is represented by its outcome
`queryOutcome` (a JavaScript value on success, a thrown value on
failure), and the elapsed wall-clock time `Date.now() - start` by `ms`.
Returns the hook's own outcome together with the console events it
emits. -/
def allOperationsHook (isProd : Bool) (model operation : String) (ms : Nat)
    (queryOutcome : Except JSValue JSValue) :
    Except JSValue JSValue × List LogEvent :=
  match queryOutcome with
  | .ok result =>
      (Except.ok result,
        if !isProd then
          [LogEvent.out ("[prisma] " ++ model ++ "." ++ operation ++
            " (" ++ toString ms ++ " ms)" ++ sizeHint result)]
        else [])
  | .error e =>
      (Except.error e,
        [LogEvent.err ("[prisma] " ++ model ++ "." ++ operation ++
          " FAILED after " ++ toString ms ++ " ms")])

/-- State of the underlying client as far as disconnection is concerned. -/
structure ClientState where
  disconnected : Bool
deriving DecidableEq, Repr

/-- A disconnect operation: given the client state, an outcome (success
or a thrown value) and the successor state.  Left abstract because
`$disconnect` belongs to the external library. -/
def DisconnectOp : Type := ClientState → Except JSValue Unit × ClientState

/-- Observable trace of one invocation of a shutdown handler: the console
events emitted, how many times `$disconnect` was called, and the value
the handler itself raised, if any. -/
structure ExitTrace where
  logs : List LogEvent
  disconnectCalls : Nat
  raised : Option JSValue

/-- Source, lines 59-68: `gracefulExit` logs intent, awaits
`prisma.$disconnect()`, and catches any failure, logging it via
`console.error("[prisma] Error during disconnect:", err)`. -/
def gracefulExit (signal : String) (disconnect : DisconnectOp)
    (st : ClientState) : ExitTrace × ClientState :=
  let intro := LogEvent.out
    ("[prisma] Received " ++ signal ++ ". Closing DB connections...")
  let (res, st1) := disconnect st
  match res with
  | .ok _ =>
      ({ logs := [intro], disconnectCalls := 1, raised := none }, st1)
  | .error e =>
      ({ logs := [intro, LogEvent.errWith "[prisma] Error during disconnect:" e]
         disconnectCalls := 1
         raised := none }, st1)

/-- Source, lines 76-79: the `beforeExit` listener.  It logs only in
non-production mode and awaits `prisma.$disconnect()` with no try/catch,
so a disconnect failure propagates out of the listener. -/
def beforeExitHandler (isProd : Bool) (disconnect : DisconnectOp)
    (st : ClientState) : ExitTrace × ClientState :=
  let introLogs :=
    if !isProd then [LogEvent.out "[prisma] beforeExit ⇒ disconnect"] else []
  let (res, st1) := disconnect st
  ({ logs := introLogs
     disconnectCalls := 1
     raised := match res with | .ok _ => none | .error e => some e }, st1)

/-- A concrete disconnect behavior that always fails by throwing the
string "boom", used to compare the two shutdown paths. -/
def failingDisconnect : DisconnectOp :=
  fun st => (Except.error (JSValue.str "boom"), { st with disconnected := true })

/-- Claim C1: for every intercepted operation, the wrapped handle is
observationally equal to the unwrapped one — on success the hook returns
exactly the value the underlying operation produced, and on failure it
re-raises exactly the failure the underlying operation raised. -/
theorem hook_observational (isProd : Bool) (model operation : String)
    (ms : Nat) (q : Except JSValue JSValue) :
    (allOperationsHook isProd model operation ms q).1 = q := by
  cases q <;> rfl

/-- Claim C2: for every successful operation in non-production mode the
hook emits exactly one informational (stdout) log line containing the
model name, operation name and elapsed milliseconds, whose size hint is
the collection length for an array result, the single-item hint for a
non-null object result, and empty otherwise — in particular for null and
undefined results. -/
theorem success_log_nonprod (model operation : String) (ms : Nat)
    (r : JSValue) :
    (allOperationsHook false model operation ms (Except.ok r)).2 =
      [LogEvent.out ("[prisma] " ++ model ++ "." ++ operation ++
        " (" ++ toString ms ++ " ms)" ++ sizeHint r)] ∧
    sizeHint r = (match r with
      | .arr elems => " items=" ++ toString elems.length
      | .obj _ => " item=1"
      | _ => "") := by
  refine ⟨rfl, ?_⟩
  cases r <;> simp [sizeHint, isArray, truthy, typeof]

/-- Claim C3: for every failing operation, in both production and
non-production modes, the hook emits exactly one error (stderr) log line
containing the model name, operation name and elapsed milliseconds, and
re-raises the original failure unchanged. -/
theorem failure_log_and_rethrow (isProd : Bool) (model operation : String)
    (ms : Nat) (e : JSValue) :
    (allOperationsHook isProd model operation ms (Except.error e)).2 =
      [LogEvent.err ("[prisma] " ++ model ++ "." ++ operation ++
        " FAILED after " ++ toString ms ++ " ms")] ∧
    (allOperationsHook isProd model operation ms (Except.error e)).1 =
      Except.error e := by
  exact ⟨rfl, rfl⟩

/-- Claim C4: `gracefulExit` calls the client's disconnect operation
exactly once per invocation and never raises, whatever the disconnect
operation does — including a second invocation run on the state left by
a first one that already disconnected — and its log output is exactly
the intent line when disconnect succeeds, and exactly the intent line
followed by the disconnect-failure error event carrying the thrown value
when disconnect fails. -/
theorem gracefulExit_total (s1 s2 : String) (disconnect : DisconnectOp)
    (st : ClientState) :
    (gracefulExit s1 disconnect st).1.raised = none ∧
    (gracefulExit s1 disconnect st).1.disconnectCalls = 1 ∧
    (gracefulExit s1 disconnect st).1.logs =
      LogEvent.out
        ("[prisma] Received " ++ s1 ++ ". Closing DB connections...") ::
      (match (disconnect st).1 with
       | .ok _ => []
       | .error e =>
           [LogEvent.errWith "[prisma] Error during disconnect:" e]) ∧
    (gracefulExit s2 disconnect (gracefulExit s1 disconnect st).2).1.raised
      = none := by
  unfold gracefulExit
  rcases h1 : disconnect st with ⟨res1, st1⟩
  rcases h2 : disconnect st1 with ⟨res2, st2⟩
  cases res1 <;> cases res2 <;> simp [h1, h2]

/-- Claim C5 counterexample: with a failing disconnect in production
mode, the `beforeExit` listener raises the disconnect failure while the
signal-path routine `gracefulExit` does not, and the listener emits no
intent log — so the before-exit path is not the same shutdown routine as
the signal path. -/
theorem beforeExit_differs_from_gracefulExit :
    (beforeExitHandler true failingDisconnect ⟨false⟩).1.raised
      = some (JSValue.str "boom") ∧
    (gracefulExit "SIGINT" failingDisconnect ⟨false⟩).1.raised = none ∧
    (beforeExitHandler true failingDisconnect ⟨false⟩).1.logs = [] := by
  exact ⟨rfl, rfl, rfl⟩

/-- Claim C5 amended: the before-exit notification is bound to its own
handler, which calls disconnect exactly once, logs the intent line only
in non-production mode, and — unlike the signal path — propagates a
disconnect failure instead of catching it. -/
theorem beforeExit_behavior (isProd : Bool) (disconnect : DisconnectOp)
    (st : ClientState) :
    (beforeExitHandler isProd disconnect st).1.disconnectCalls = 1 ∧
    (beforeExitHandler isProd disconnect st).1.logs =
      (if isProd then []
       else [LogEvent.out "[prisma] beforeExit ⇒ disconnect"]) ∧
    (beforeExitHandler isProd disconnect st).1.raised =
      (match (disconnect st).1 with
       | .ok _ => none
       | .error e => some e) := by
  unfold beforeExitHandler
  rcases h : disconnect st with ⟨res, st1⟩
  cases res <;> cases isProd <;> simp

/-- Claim C6: in non-production mode, two sequential initializations
yield the identical base-client instance — the first stores the client
in the global slot and the second reuses it. -/
theorem nonprod_singleton (g : GlobalState) :
    (initBase false g).2.slot = some (initBase false g).1 ∧
    (initBase false ((initBase false g).2)).1 = (initBase false g).1 ∧
    (initBase false ((initBase false g).2)).2 = (initBase false g).2 := by
  unfold initBase
  cases h : g.slot <;> simp [h]

/-- Claim C7: the base client's options are determined solely by the
production flag — log levels {warn, error} and minimal error format in
production, {info, warn, error} and pretty error format otherwise. -/
theorem options_by_flag :
    prismaOptions true =
      { log := [.warn, .error], errorFormat := .minimal } ∧
    prismaOptions false =
      { log := [.info, .warn, .error], errorFormat := .pretty } := by
  exact ⟨rfl, rfl⟩

/-- Claim C8: production initialization never writes the global slot,
yet still reads it — it returns the stored client when the slot is
occupied and constructs a fresh one only when the slot is empty. -/
theorem prod_frame (g : GlobalState) :
    (initBase true g).2.slot = g.slot ∧
    (initBase true g).1 =
      (match g.slot with
       | some c => c
       | none => g.nextId) := by
  unfold initBase
  cases h : g.slot <;> simp [h]

/-- Claim C9: in production mode a successful operation emits no log
output from the hook, while the returned value is identical to the
non-production run. -/
theorem prod_success_silent (model operation : String) (ms : Nat)
    (r : JSValue) :
    (allOperationsHook true model operation ms (Except.ok r)).2 = [] ∧
    (allOperationsHook true model operation ms (Except.ok r)).1 =
      (allOperationsHook false model operation ms (Except.ok r)).1 := by
  exact ⟨rfl, rfl⟩

/-- Claim C10: the production flag does not interfere with operation
outcomes — for any behavior of the underlying operation, runs differing
only in the flag produce the same success value or the same raised
failure. -/
theorem flag_noninterference (model operation : String) (ms : Nat)
    (q : Except JSValue JSValue) :
    (allOperationsHook true model operation ms q).1 =
      (allOperationsHook false model operation ms q).1 := by
  cases q <;> rfl

end Postgres
